import Mathlib

/-
Shallow embedding of the kt-result library (karnkaul/kt-result).

Source files:
  * src/result.hpp — `kt::result<T, E>` with specializations
      - general shape  result<T, E>  (T, E distinct), storage std::variant<T, E>
      - homogeneous    result<T, T>, storage result_storage_t<T, void> + bool m_error
      - optional       result<T, void>, storage std::optional<T>
      - boolean        result<bool, void>, storage a bare bool flag
  * src/unnamed/part_000 — the dispatch-policy variant `kt::result<T, RD>`
      with a signal type, throwing accessors and a total error() accessor.

Modelling conventions:
  * C++ `assert(p)` in an accessor is modelled by an Option-valued function
    that returns `none` exactly when the assertion would fire (the contract
    violation path) and `some` of the source expression otherwise.
  * C++ `T{}` / `E{}` (value-initialization) is modelled by `default` of an
    `Inhabited` instance.
  * `std::variant<T, E>` is `T ⊕ E`; `std::optional<T>` is `Option T`.
  * `throw std::runtime_error("Invalid result!")` in the dispatch variant is
    modelled by `Except.error "Invalid result!"`; dereferencing an empty
    `std::optional` (undefined behavior in the source) is modelled by a
    distinct fault value so that it is never confused with a defined result.
  * Destructive member functions (`move`) take the receiver and return the
    extracted value together with the post-state of the receiver.
-/

namespace kt

/-- detail::result_storage_t<T, E> (general specialization, result.hpp:261-292):
a `std::variant<T, E> val`. -/
structure result_storage_t (T E : Type) where
  val : T ⊕ E

namespace result_storage_t

variable {T E : Type}

/-- Default constructor `result_storage_t() : val(E{})` (result.hpp:265). -/
def mk_default (T E : Type) [Inhabited E] : result_storage_t T E :=
  ⟨Sum.inr default⟩

/-- Constructors from a T value (result.hpp:267-270). -/
def mk_value (t : T) : result_storage_t T E :=
  ⟨Sum.inl t⟩

/-- Constructors from an E value (result.hpp:271-274). -/
def mk_error (e : E) : result_storage_t T E :=
  ⟨Sum.inr e⟩

/-- `has_value()`: `std::holds_alternative<T>(val)` (result.hpp:275-277). -/
def has_value (s : result_storage_t T E) : Bool :=
  s.val.isLeft

/-- `value()`: `assert(has_value()); return std::get<T>(val);` (result.hpp:278-281).
`none` models the assertion firing. -/
def value (s : result_storage_t T E) : Option T :=
  s.val.getLeft?

/-- `move()`: `assert(has_value()); T ret = std::get<T>(std::move(val)); val = E{};
return ret;` (result.hpp:282-287). Returns the extracted T and the post-state;
`none` models the assertion firing. -/
def move [Inhabited E] (s : result_storage_t T E) : Option (T × result_storage_t T E) :=
  match s.val with
  | Sum.inl t => some (t, ⟨Sum.inr default⟩)
  | Sum.inr _ => none

/-- `error()`: `assert(!has_value()); return std::get<E>(val);` (result.hpp:288-291).
`none` models the assertion firing. -/
def error (s : result_storage_t T E) : Option E :=
  s.val.getRight?

end result_storage_t

/-- detail::result_storage_t<T, void> (result.hpp:293-315): a `std::optional<T> val`. -/
structure result_storage_opt (T : Type) where
  val : Option T

namespace result_storage_opt

variable {T : Type}

/-- Default constructor: empty optional (result.hpp:297). -/
def mk_default (T : Type) : result_storage_opt T :=
  ⟨none⟩

/-- Constructors from a T value (result.hpp:298-301). -/
def mk_value (t : T) : result_storage_opt T :=
  ⟨some t⟩

/-- `has_value()`: `val.has_value()` (result.hpp:302-304). -/
def has_value (s : result_storage_opt T) : Bool :=
  s.val.isSome

/-- `value()`: `assert(has_value()); return *val;` (result.hpp:305-308).
`none` models the assertion firing (it fires exactly when `val` is empty). -/
def value (s : result_storage_opt T) : Option T :=
  s.val

/-- `move()`: `assert(has_value()); T ret = std::move(*val); val.reset(); return ret;`
(result.hpp:309-314). `none` models the assertion firing. -/
def move (s : result_storage_opt T) : Option (T × result_storage_opt T) :=
  match s.val with
  | some t => some (t, ⟨none⟩)
  | none => none

end result_storage_opt

/-- detail::result_storage_t<bool, void> (result.hpp:316-335): a bare `bool val`. -/
structure result_storage_bool where
  val : Bool

namespace result_storage_bool

/-- Default constructor: `val(false)` (result.hpp:320). -/
def mk_default : result_storage_bool :=
  ⟨false⟩

/-- Constructor from a bool (result.hpp:322). -/
def mk_value (b : Bool) : result_storage_bool :=
  ⟨b⟩

/-- `has_value()`: returns the flag (result.hpp:324-326). -/
def has_value (s : result_storage_bool) : Bool :=
  s.val

/-- `value()`: returns the flag — NO assertion in this specialization
(result.hpp:327-329), hence total. -/
def value (s : result_storage_bool) : Bool :=
  s.val

/-- `move()`: `bool const ret = val; val = false; return ret;` (result.hpp:330-334).
NO assertion: total, returns the flag and the reset post-state. -/
def move (s : result_storage_bool) : Bool × result_storage_bool :=
  (s.val, ⟨false⟩)

end result_storage_bool

/-- kt::result<T, E> — the general shape with distinct T and E (result.hpp:38-112,
member definitions at result.hpp:338-388). Owns a result_storage_t<T, E>. -/
structure result_TE (T E : Type) where
  m_storage : result_storage_t T E

namespace result_TE

variable {T E : Type}

/-- Default constructor (failure): defaults `m_storage` (result.hpp:55);
the nullptr constructor (result.hpp:350-352) delegates to it. -/
def mk_default (T E : Type) [Inhabited E] : result_TE T E :=
  ⟨result_storage_t.mk_default T E⟩

/-- Constructor for result (success), from a T (result.hpp:338-343). -/
def mk_value (t : T) : result_TE T E :=
  ⟨result_storage_t.mk_value t⟩

/-- Constructor for error (failure), from an E (result.hpp:344-349). -/
def mk_error (e : E) : result_TE T E :=
  ⟨result_storage_t.mk_error e⟩

/-- `has_result()`: `m_storage.has_value()` (result.hpp:357-360). -/
def has_result (r : result_TE T E) : Bool :=
  r.m_storage.has_value

/-- `operator bool()`: `has_result()` (result.hpp:353-356). -/
def to_bool (r : result_TE T E) : Bool :=
  r.has_result

/-- `has_error()`: `!has_result()` (result.hpp:361-364). -/
def has_error (r : result_TE T E) : Bool :=
  !r.has_result

/-- `get_result()`: `m_storage.value()` (result.hpp:365-368); `none` models the
storage assertion firing. -/
def get_result (r : result_TE T E) : Option T :=
  r.m_storage.value

/-- `value_or(fallback)`: `has_result() ? get_result() : fallback` (result.hpp:369-372);
the true branch may itself fault (modelled `none`) if the storage assertion fired. -/
def value_or (r : result_TE T E) (fallback : T) : Option T :=
  if r.has_result then r.get_result else some fallback

/-- `error()`: `m_storage.error()` (result.hpp:373-376). -/
def error (r : result_TE T E) : Option E :=
  r.m_storage.error

/-- `move()`: `m_storage.move()` (result.hpp:377-380). -/
def move [Inhabited E] (r : result_TE T E) : Option (T × result_TE T E) :=
  (r.m_storage.move).map fun p => (p.1, ⟨p.2⟩)

/-- `operator*()`: `get_result()` (result.hpp:381-384). -/
def star (r : result_TE T E) : Option T :=
  r.get_result

/-- `operator->()`: `&get_result()` (result.hpp:385-388). -/
def arrow (r : result_TE T E) : Option T :=
  r.get_result

end result_TE

/-- kt::result<T, T> — the homogeneous shape (result.hpp:118-194, member
definitions at result.hpp:390-456). Owns a result_storage_t<T, void> plus an
explicit `bool m_error = true` discriminant. -/
structure result_TT (T : Type) where
  m_storage : result_storage_opt T
  m_error : Bool

namespace result_TT

variable {T : Type}

/-- Default constructor: `result() : m_storage(err_t{}), m_error(true)`
(result.hpp:390-392) — the storage holds a default-constructed T, tagged error;
the nullptr constructor (result.hpp:393-395) delegates to it. -/
def mk_default (T : Type) [Inhabited T] : result_TT T :=
  ⟨result_storage_opt.mk_value default, true⟩

/-- `set_result(t)`: `m_storage = t; m_error = false;` (result.hpp:396-405). -/
def set_result (r : result_TT T) (t : T) : result_TT T :=
  { r with m_storage := result_storage_opt.mk_value t, m_error := false }

/-- `set_error(e)`: `m_storage = e; m_error = true;` (result.hpp:406-415). -/
def set_error (r : result_TT T) (e : T) : result_TT T :=
  { r with m_storage := result_storage_opt.mk_value e, m_error := true }

/-- `has_result()`: `!m_error` (result.hpp:420-423). -/
def has_result (r : result_TT T) : Bool :=
  !r.m_error

/-- `operator bool()`: `has_result()` (result.hpp:416-419). -/
def to_bool (r : result_TT T) : Bool :=
  r.has_result

/-- `has_error()`: `!has_result()` (result.hpp:424-427). -/
def has_error (r : result_TT T) : Bool :=
  !r.has_result

/-- `get_result()`: `assert(!m_error); return m_storage.value();`
(result.hpp:428-432); `none` models either assertion firing. -/
def get_result (r : result_TT T) : Option T :=
  if r.m_error then none else r.m_storage.value

/-- `value_or(fallback)`: `has_result() ? get_result() : fallback`
(result.hpp:433-436). -/
def value_or (r : result_TT T) (fallback : T) : Option T :=
  if r.has_result then r.get_result else some fallback

/-- `error()`: `assert(m_error); return m_storage.value();` (result.hpp:437-441);
`none` models either assertion firing. -/
def error (r : result_TT T) : Option T :=
  if r.m_error then r.m_storage.value else none

/-- `move()` as written in the source (result.hpp:442-448):
`assert(!m_error); T ret = m_storage.move(); error(err_t{}); return ret;`.
The statement `error(err_t{});` passes an argument to `error()`, which takes no
arguments — no such overload exists, so the member function is ill-formed C++
and fails to compile whenever it is instantiated (the evident intent, matching
the class's API and the library's own description, is `set_error(err_t{})`).
Modelled as an attempted invocation of the accessor `error()` at that point:
its `assert(m_error)` fires, because `m_error` is false there, so the whole
operation faults (`none`) instead of producing a value and a post-state. -/
def move (r : result_TT T) : Option (T × result_TT T) :=
  if r.m_error then none
  else
    match r.m_storage.move with
    | none => none
    | some _ => none

/-- `move()` as evidently intended and as the library describes it: extract,
then `set_error(err_t{})` to re-arm into the default failure state (the source
line `error(err_t{});` with the missing `set_` restored). Used to state what
the claimed behavior requires. -/
def move_intended [Inhabited T] (r : result_TT T) : Option (T × result_TT T) :=
  if r.m_error then none
  else
    match r.m_storage.move with
    | none => none
    | some p => some (p.1, set_error ⟨p.2, r.m_error⟩ default)

/-- `operator*()`: `get_result()` (result.hpp:449-452). -/
def star (r : result_TT T) : Option T :=
  r.get_result

/-- `operator->()`: `&get_result()` (result.hpp:453-456). -/
def arrow (r : result_TT T) : Option T :=
  r.get_result

end result_TT

/-- kt::result<T, void> — the optional shape (result.hpp:200-258, member
definitions at result.hpp:458-498). Owns a result_storage_t<T, void>. -/
structure result_Tvoid (T : Type) where
  m_storage : result_storage_opt T

namespace result_Tvoid

variable {T : Type}

/-- Default constructor (failure): empty storage (result.hpp:213); the nullptr
constructor (result.hpp:464-466) delegates to it. -/
def mk_default (T : Type) : result_Tvoid T :=
  ⟨result_storage_opt.mk_default T⟩

/-- Constructor for result (success), from a T (result.hpp:458-463). -/
def mk_value (t : T) : result_Tvoid T :=
  ⟨result_storage_opt.mk_value t⟩

/-- `has_result()`: `m_storage.has_value()` (result.hpp:471-474). -/
def has_result (r : result_Tvoid T) : Bool :=
  r.m_storage.has_value

/-- `operator bool()`: `has_result()` (result.hpp:467-470). -/
def to_bool (r : result_Tvoid T) : Bool :=
  r.has_result

/-- `has_error()`: `!has_result()` (result.hpp:475-478). -/
def has_error (r : result_Tvoid T) : Bool :=
  !r.has_result

/-- `get_result()`: `m_storage.value()` (result.hpp:479-482). -/
def get_result (r : result_Tvoid T) : Option T :=
  r.m_storage.value

/-- `value_or(fallback)`: `has_result() ? get_result() : fallback`
(result.hpp:483-486). -/
def value_or (r : result_Tvoid T) (fallback : T) : Option T :=
  if r.has_result then r.get_result else some fallback

/-- `move()`: `m_storage.move()` (result.hpp:487-490). -/
def move (r : result_Tvoid T) : Option (T × result_Tvoid T) :=
  (r.m_storage.move).map fun p => (p.1, ⟨p.2⟩)

/-- `operator*()`: `get_result()` (result.hpp:491-494). -/
def star (r : result_Tvoid T) : Option T :=
  r.get_result

/-- `operator->()`: `&get_result()` (result.hpp:495-498). -/
def arrow (r : result_Tvoid T) : Option T :=
  r.get_result

end result_Tvoid

/-- kt::result<bool, void> — the boolean specialization: the result<T, void>
template (result.hpp:200-258) instantiated with the result_storage_t<bool, void>
storage specialization (result.hpp:316-335) where the flag itself is the state. -/
structure result_boolvoid where
  m_storage : result_storage_bool

namespace result_boolvoid

/-- Default constructor (failure): flag false (result.hpp:213, 320). -/
def mk_default : result_boolvoid :=
  ⟨result_storage_bool.mk_default⟩

/-- Constructor from a bool (result.hpp:458-463, storage ctor at result.hpp:322). -/
def mk_value (b : Bool) : result_boolvoid :=
  ⟨result_storage_bool.mk_value b⟩

/-- `has_result()`: `m_storage.has_value()` — the flag (result.hpp:471-474, 324-326). -/
def has_result (r : result_boolvoid) : Bool :=
  r.m_storage.has_value

/-- `operator bool()`: `has_result()` (result.hpp:467-470). -/
def to_bool (r : result_boolvoid) : Bool :=
  r.has_result

/-- `has_error()`: `!has_result()` (result.hpp:475-478). -/
def has_error (r : result_boolvoid) : Bool :=
  !r.has_result

/-- `get_result()`: `m_storage.value()` — total, no assertion in this
specialization (result.hpp:479-482, 327-329). -/
def get_result (r : result_boolvoid) : Bool :=
  r.m_storage.value

/-- `value_or(fallback)`: `has_result() ? get_result() : fallback`
(result.hpp:483-486). -/
def value_or (r : result_boolvoid) (fallback : Bool) : Bool :=
  if r.has_result then r.get_result else fallback

/-- `move()`: `m_storage.move()` — total, no assertion; returns the flag and
resets it to false (result.hpp:487-490, 330-334). -/
def move (r : result_boolvoid) : Bool × result_boolvoid :=
  ((r.m_storage.move).1, ⟨(r.m_storage.move).2⟩)

end result_boolvoid

/-! The dispatch-policy variant (src/unnamed/part_000). -/

/-- `enum class result_signal { ok, error }` (part_000:14). -/
inductive result_signal where
  | ok
  | error
deriving DecidableEq, Repr

/-- A result dispatch tag type (part_000:18-30): bundles the signal values for
success and failure over a signal type S. (In the C++ the policy also names the
error type; here the error type is the E parameter of the result structures.) -/
structure result_dispatch (S : Type) where
  success : S
  failure : S

/-- The default dispatch `result_dispatch<Err, result_signal>` (part_000:23-30):
success = result_signal::ok, failure = result_signal::error. -/
def default_dispatch : result_dispatch result_signal :=
  ⟨result_signal.ok, result_signal.error⟩

/-- detail::result_storage<T, Sig, Null, E> (part_000:33-38): an optional data
slot, a default-initialized error and a signal initialized to Null (= RD::failure). -/
structure dresult_storage (T S E : Type) where
  data : Option T
  error : E
  signal : S

/-- detail::result_storage<T, Sig, Null, void> (part_000:39-43): no error member. -/
structure dresult_storage_void (T S : Type) where
  data : Option T
  signal : S

/-- kt::result<T, RD> with a non-void error type (part_000:63-129): wraps a
dresult_storage. Operations take the dispatch policy d as a parameter. -/
structure dresult (T S E : Type) where
  storage : dresult_storage T S E

namespace dresult

variable {T S E : Type} [DecidableEq S]

/-- Default constructor (part_000:75): member-default storage, i.e. empty data,
default error, signal = RD::failure (part_000:33-38). -/
def mk_default [Inhabited E] (d : result_dispatch S) : dresult T S E :=
  ⟨⟨none, default, d.failure⟩⟩

/-- Signal constructor `result(sig signal, Args&&... args)` (part_000:92-93,
165-176): sets the error from the args when any are given, then the signal;
data is left empty. The zero-or-one argument pack is modelled as an Option E
holding the error value the pack would construct. -/
def mk_sig [Inhabited E] (signal : S) (arg : Option E) : dresult T S E :=
  ⟨⟨none, arg.getD default, signal⟩⟩

/-- Failure constructor `result(Args&&... args)` with a nonempty pack
(part_000:79-80, 147-151): delegates to the signal constructor with RD::failure. -/
def mk_fail [Inhabited E] (d : result_dispatch S) (e : E) : dresult T S E :=
  mk_sig d.failure (some e)

/-- Success constructor from a T value (part_000:84-88, 153-163): sets data and
signal = RD::success; the error member keeps its default initialization. -/
def mk_value [Inhabited E] (d : result_dispatch S) (v : T) : dresult T S E :=
  ⟨⟨some v, default, d.success⟩⟩

/-- `operator bool()`: `storage.signal == RD::success` (part_000:178-181). -/
def to_bool (d : result_dispatch S) (r : dresult T S E) : Bool :=
  r.storage.signal = d.success

/-- `operator*()` (part_000:183-189): returns `*storage.data` when the signal is
the success tag, otherwise throws `std::runtime_error("Invalid result!")`.
Dereferencing an empty optional is undefined behavior in the source; it is
modelled by the distinct fault value `"empty optional dereferenced"`. -/
def star (d : result_dispatch S) (r : dresult T S E) : Except String T :=
  if r.storage.signal = d.success then
    match r.storage.data with
    | some v => Except.ok v
    | none => Except.error "empty optional dereferenced"
  else Except.error "Invalid result!"

/-- `move()` (part_000:191-198): when the signal is the success tag, sets the
signal to RD::failure and returns `std::move(*storage.data)` (the data slot is
not cleared); otherwise throws `std::runtime_error("Invalid result!")`. -/
def move (d : result_dispatch S) (r : dresult T S E) :
    Except String (T × dresult T S E) :=
  if r.storage.signal = d.success then
    match r.storage.data with
    | some v => Except.ok (v, ⟨⟨r.storage.data, r.storage.error, d.failure⟩⟩)
    | none => Except.error "empty optional dereferenced"
  else Except.error "Invalid result!"

/-- `operator->()` (part_000:200-206): address of the held value when the signal
is the success tag, otherwise throws. -/
def arrow (d : result_dispatch S) (r : dresult T S E) : Except String T :=
  if r.storage.signal = d.success then
    match r.storage.data with
    | some v => Except.ok v
    | none => Except.error "empty optional dereferenced"
  else Except.error "Invalid result!"

/-- `value_or(fallback)` (part_000:208-214): `*storage.data` when the signal is
the success tag, else the fallback. The success branch dereferences the optional
(undefined behavior when empty, modelled `none`). -/
def value_or (d : result_dispatch S) (r : dresult T S E) (fallback : T) : Option T :=
  if r.storage.signal = d.success then r.storage.data else some fallback

/-- `error()` (part_000:216-225), non-void err: `b_error = signal != RD::success;
return b_error ? storage.error : none;` where `none` is a static default-valued
err — total, never throws or asserts. -/
def error [Inhabited E] (d : result_dispatch S) (r : dresult T S E) : E :=
  if r.storage.signal = d.success then default else r.storage.error

end dresult

/-- kt::result<T, RD> with err = void (part_000:63-129 over the void storage
specialization, part_000:39-43). -/
structure dresult_void (T S : Type) where
  storage : dresult_storage_void T S

namespace dresult_void

variable {T S : Type} [DecidableEq S]

/-- Default constructor: empty data, signal = RD::failure (part_000:75, 39-43). -/
def mk_default (d : result_dispatch S) : dresult_void T S :=
  ⟨⟨none, d.failure⟩⟩

/-- Success constructor from a T value (part_000:153-163). -/
def mk_value (d : result_dispatch S) (v : T) : dresult_void T S :=
  ⟨⟨some v, d.success⟩⟩

/-- Signal constructor with an empty pack (part_000:165-176; a nonempty pack is
rejected by static_assert when err is void). -/
def mk_sig (signal : S) : dresult_void T S :=
  ⟨⟨none, signal⟩⟩

/-- `operator bool()`: `storage.signal == RD::success` (part_000:178-181). -/
def to_bool (d : result_dispatch S) (r : dresult_void T S) : Bool :=
  r.storage.signal = d.success

/-- `value_or(fallback)` (part_000:208-214). -/
def value_or (d : result_dispatch S) (r : dresult_void T S) (fallback : T) : Option T :=
  if r.storage.signal = d.success then r.storage.data else some fallback

/-- `error()` (part_000:216-225), void err: returns the bool
`storage.signal != RD::success` — total, never throws or asserts. -/
def error (d : result_dispatch S) (r : dresult_void T S) : Bool :=
  !(r.storage.signal = d.success : Bool)

end dresult_void

/-! Theorems about the embedded library. -/

/-- C1: the claim says result<T, T>::move() on a success instance returns the
held T and leaves the instance reporting failure with error() = T{}. The source
(result.hpp:446) instead writes `error(err_t{});` — a call of the zero-argument
accessor error() with an argument, which has no matching overload, so move()
is ill-formed and fails to compile when instantiated; read as an invocation of
error(), its assert(m_error) fires since m_error is false there. On the concrete
success instance holding 5 the code-model faults (none) instead of delivering
the claimed value and post-state, while the one-token repair set_error(err_t{})
(move_intended, matching the library's description) delivers exactly the claimed
behavior: value 5 and a post-state with has_result() = false and error() = some 0. -/
theorem hom_move_code_slip :
    result_TT.move ((result_TT.mk_default Nat).set_result 5) = none ∧
    result_TT.move_intended ((result_TT.mk_default Nat).set_result 5) =
      some (5, (result_TT.mk_default Nat).set_error 0) ∧
    ((result_TT.mk_default Nat).set_error 0).has_result = false ∧
    ((result_TT.mk_default Nat).set_error 0).error = some 0 :=
  ⟨rfl, rfl, rfl, rfl⟩

/-- C2: a default-constructed instance reports failure — operator bool and
has_result() are false — for every shape: general result<T, E>, homogeneous
result<T, T>, optional result<T, void>, boolean result<bool, void>, and the
dispatch-policy variant (both with an error type and with err = void), the
latter provided the policy's failure tag differs from its success tag. -/
theorem default_construction_yields_failure (T E S : Type) [Inhabited T]
    [Inhabited E] [DecidableEq S] (d : result_dispatch S)
    (hne : d.failure ≠ d.success) :
    (result_TE.mk_default T E).has_result = false ∧
    (result_TE.mk_default T E).to_bool = false ∧
    (result_TT.mk_default T).has_result = false ∧
    (result_TT.mk_default T).to_bool = false ∧
    (result_Tvoid.mk_default T).has_result = false ∧
    (result_Tvoid.mk_default T).to_bool = false ∧
    result_boolvoid.mk_default.has_result = false ∧
    result_boolvoid.mk_default.to_bool = false ∧
    dresult.to_bool d (dresult.mk_default d : dresult T S E) = false ∧
    dresult_void.to_bool d (dresult_void.mk_default d : dresult_void T S) = false := by
  refine ⟨rfl, rfl, rfl, rfl, rfl, rfl, rfl, rfl, ?_, ?_⟩ <;>
    simp [dresult.to_bool, dresult.mk_default, dresult_void.to_bool,
      dresult_void.mk_default, hne]

/-- Witness for C2 at T = E = Nat, S = result_signal, the default dispatch. -/
theorem default_construction_yields_failure_witness :
    (result_TE.mk_default Nat Nat).has_result = false ∧
    (result_TE.mk_default Nat Nat).to_bool = false ∧
    (result_TT.mk_default Nat).has_result = false ∧
    (result_TT.mk_default Nat).to_bool = false ∧
    (result_Tvoid.mk_default Nat).has_result = false ∧
    (result_Tvoid.mk_default Nat).to_bool = false ∧
    result_boolvoid.mk_default.has_result = false ∧
    result_boolvoid.mk_default.to_bool = false ∧
    dresult.to_bool default_dispatch
      (dresult.mk_default default_dispatch : dresult Nat result_signal Nat) = false ∧
    dresult_void.to_bool default_dispatch
      (dresult_void.mk_default default_dispatch : dresult_void Nat result_signal) = false :=
  default_construction_yields_failure Nat Nat result_signal default_dispatch
    (by decide)

/-- C3: for distinct T and E, a result<T, E> constructed from a T reports
success, get_result() returns that T and has_error() is false; one constructed
from an E reports failure, error() returns that E and has_result() is false. -/
theorem general_construction_from_T_or_E (T E : Type) (t : T) (e : E) :
    (result_TE.mk_value t : result_TE T E).has_result = true ∧
    (result_TE.mk_value t : result_TE T E).get_result = some t ∧
    (result_TE.mk_value t : result_TE T E).has_error = false ∧
    (result_TE.mk_error e : result_TE T E).has_result = false ∧
    (result_TE.mk_error e : result_TE T E).error = some e ∧
    (result_TE.mk_error e : result_TE T E).has_error = true :=
  ⟨rfl, rfl, rfl, rfl, rfl, rfl⟩

/-- Witness for C3 at T = Nat, E = Bool with t = 5, e = true. -/
theorem general_construction_from_T_or_E_witness :
    (result_TE.mk_value 5 : result_TE Nat Bool).has_result = true ∧
    (result_TE.mk_value 5 : result_TE Nat Bool).get_result = some 5 ∧
    (result_TE.mk_value 5 : result_TE Nat Bool).has_error = false ∧
    (result_TE.mk_error true : result_TE Nat Bool).has_result = false ∧
    (result_TE.mk_error true : result_TE Nat Bool).error = some true ∧
    (result_TE.mk_error true : result_TE Nat Bool).has_error = true :=
  general_construction_from_T_or_E Nat Bool 5 true

/-- C4: for the general shape, move() on a success instance (one holding t)
returns t and leaves the instance in the default-failure state: has_result()
is false and error() is a default-constructed E. -/
theorem general_move_resets_to_default_failure (T E : Type) [Inhabited E]
    (r : result_TE T E) (t : T) (h : r.get_result = some t) :
    r.move = some (t, result_TE.mk_default T E) ∧
    (result_TE.mk_default T E).has_result = false ∧
    (result_TE.mk_default T E).error = some (default : E) := by
  refine ⟨?_, rfl, rfl⟩
  rcases r with ⟨⟨val⟩⟩
  cases val with
  | inl a =>
      have : a = t := by
        simpa [result_TE.get_result, result_storage_t.value] using h
      subst this
      rfl
  | inr b =>
      simp [result_TE.get_result, result_storage_t.value] at h

/-- Witness for C4 at result<Nat, Nat> holding 7. -/
theorem general_move_resets_to_default_failure_witness :
    (result_TE.mk_value 7 : result_TE Nat Nat).move =
      some (7, result_TE.mk_default Nat Nat) ∧
    (result_TE.mk_default Nat Nat).has_result = false ∧
    (result_TE.mk_default Nat Nat).error = some (default : Nat) :=
  general_move_resets_to_default_failure Nat Nat (result_TE.mk_value 7) 7 rfl

/-- C5: the boolean specialization result<bool, void>: constructing with true
yields success with value true; constructing with false yields failure;
get_result() is total and simply returns the flag; and the flag is the entire
state, so there is no empty state distinct from false. -/
theorem bool_specialization_semantics :
    (result_boolvoid.mk_value true).has_result = true ∧
    (result_boolvoid.mk_value true).to_bool = true ∧
    (result_boolvoid.mk_value true).get_result = true ∧
    (result_boolvoid.mk_value false).has_result = false ∧
    (result_boolvoid.mk_value false).to_bool = false ∧
    (∀ r : result_boolvoid, r.get_result = r.m_storage.val) ∧
    (∀ r : result_boolvoid, r = result_boolvoid.mk_value r.get_result) :=
  ⟨rfl, rfl, rfl, rfl, rfl, fun _ => rfl, fun _ => rfl⟩

/-- C6: in the dispatch-policy variant, operator*, move() and operator-> each
throw the generic "Invalid result!" failure on an instance whose signal is not
the success tag, and each succeeds — returning/moving the held value — on an
instance whose signal is the success tag and which holds a value. -/
theorem dispatch_throwing_accessors (T S E : Type) [DecidableEq S]
    (d : result_dispatch S) (rf rs : dresult T S E) (v : T)
    (hf : rf.storage.signal ≠ d.success)
    (hs : rs.storage.signal = d.success) (hv : rs.storage.data = some v) :
    dresult.star d rf = Except.error "Invalid result!" ∧
    dresult.move d rf = Except.error "Invalid result!" ∧
    dresult.arrow d rf = Except.error "Invalid result!" ∧
    dresult.star d rs = Except.ok v ∧
    dresult.move d rs =
      Except.ok (v, ⟨⟨rs.storage.data, rs.storage.error, d.failure⟩⟩) ∧
    dresult.arrow d rs = Except.ok v := by
  refine ⟨?_, ?_, ?_, ?_, ?_, ?_⟩ <;>
    simp [dresult.star, dresult.move, dresult.arrow, hf, hs, hv]

/-- Witness for C6 at T = Nat, E = Nat, the default dispatch, with the
default-constructed failure instance and a success instance holding 9. -/
theorem dispatch_throwing_accessors_witness :
    dresult.star default_dispatch
      (dresult.mk_default default_dispatch : dresult Nat result_signal Nat) =
      Except.error "Invalid result!" ∧
    dresult.move default_dispatch
      (dresult.mk_default default_dispatch : dresult Nat result_signal Nat) =
      Except.error "Invalid result!" ∧
    dresult.arrow default_dispatch
      (dresult.mk_default default_dispatch : dresult Nat result_signal Nat) =
      Except.error "Invalid result!" ∧
    dresult.star default_dispatch
      (dresult.mk_value default_dispatch 9 : dresult Nat result_signal Nat) =
      Except.ok 9 ∧
    dresult.move default_dispatch
      (dresult.mk_value default_dispatch 9 : dresult Nat result_signal Nat) =
      Except.ok (9,
        ⟨⟨(dresult.mk_value default_dispatch 9 :
            dresult Nat result_signal Nat).storage.data,
          (dresult.mk_value default_dispatch 9 :
            dresult Nat result_signal Nat).storage.error,
          default_dispatch.failure⟩⟩) ∧
    dresult.arrow default_dispatch
      (dresult.mk_value default_dispatch 9 : dresult Nat result_signal Nat) =
      Except.ok 9 :=
  dispatch_throwing_accessors Nat result_signal Nat default_dispatch
    (dresult.mk_default default_dispatch)
    (dresult.mk_value default_dispatch 9) 9 (by decide) rfl rfl

/-- C7: value_or(fallback) never faults (it always yields a defined value, never
tripping an assertion or throwing) and returns the held value on success and
exactly the fallback on failure, for every shape. For the homogeneous shape this
needs its API invariant that the storage is always engaged (every constructor
and setter establishes it), and for the dispatch shapes the invariant that a
success-signalled instance holds data (established by every documented
constructor; only passing the success tag to the non-success-signal constructor
can break it, after which the source dereferences an empty optional). -/
theorem value_or_never_fails (T E S : Type) [Inhabited E] [DecidableEq S]
    (d : result_dispatch S)
    (rh : result_TT T) (th : T) (hh : rh.m_storage.val = some th)
    (rd : dresult T S E)
    (hd : rd.storage.signal = d.success → rd.storage.data.isSome = true)
    (rw : dresult_void T S)
    (hw : rw.storage.signal = d.success → rw.storage.data.isSome = true) :
    (∀ (rg : result_TE T E) (fb : T),
      rg.value_or fb = some (Sum.elim id (fun _ => fb) rg.m_storage.val)) ∧
    (∀ fb : T, rh.value_or fb = some (if rh.m_error then fb else th)) ∧
    (∀ (ro : result_Tvoid T) (fb : T),
      ro.value_or fb = some (ro.m_storage.val.getD fb)) ∧
    (∀ (rb : result_boolvoid) (fb : Bool),
      rb.value_or fb = (if rb.m_storage.val then true else fb)) ∧
    (∀ fb : T, dresult.value_or d rd fb =
      some (if rd.storage.signal = d.success then rd.storage.data.getD fb else fb)) ∧
    (∀ fb : T, dresult_void.value_or d rw fb =
      some (if rw.storage.signal = d.success then rw.storage.data.getD fb else fb)) := by
  refine ⟨?_, ?_, ?_, ?_, ?_, ?_⟩
  · rintro ⟨⟨val⟩⟩ fb
    cases val <;>
      simp [result_TE.value_or, result_TE.has_result, result_TE.get_result,
        result_storage_t.has_value, result_storage_t.value]
  · intro fb
    by_cases he : rh.m_error <;>
      simp [result_TT.value_or, result_TT.has_result, result_TT.get_result,
        result_storage_opt.value, he, hh]
  · rintro ⟨⟨val⟩⟩ fb
    cases val <;>
      simp [result_Tvoid.value_or, result_Tvoid.has_result, result_Tvoid.get_result,
        result_storage_opt.has_value, result_storage_opt.value]
  · rintro ⟨⟨val⟩⟩ fb
    cases val <;>
      simp [result_boolvoid.value_or, result_boolvoid.has_result,
        result_boolvoid.get_result, result_storage_bool.has_value,
        result_storage_bool.value]
  · intro fb
    by_cases hsig : rd.storage.signal = d.success
    · rcases Option.isSome_iff_exists.mp (hd hsig) with ⟨v, hv⟩
      simp [dresult.value_or, hsig, hv]
    · simp [dresult.value_or, hsig]
  · intro fb
    by_cases hsig : rw.storage.signal = d.success
    · rcases Option.isSome_iff_exists.mp (hw hsig) with ⟨v, hv⟩
      simp [dresult_void.value_or, hsig, hv]
    · simp [dresult_void.value_or, hsig]

/-- Witness for C7 at T = E = Nat, S = result_signal, the default dispatch,
with a homogeneous success instance holding 3 and dispatch success instances
holding 4. -/
theorem value_or_never_fails_witness :
    (∀ (rg : result_TE Nat Nat) (fb : Nat),
      rg.value_or fb = some (Sum.elim id (fun _ => fb) rg.m_storage.val)) ∧
    (∀ fb : Nat, ((result_TT.mk_default Nat).set_result 3).value_or fb =
      some (if ((result_TT.mk_default Nat).set_result 3).m_error then fb else 3)) ∧
    (∀ (ro : result_Tvoid Nat) (fb : Nat),
      ro.value_or fb = some (ro.m_storage.val.getD fb)) ∧
    (∀ (rb : result_boolvoid) (fb : Bool),
      rb.value_or fb = (if rb.m_storage.val then true else fb)) ∧
    (∀ fb : Nat, dresult.value_or default_dispatch
      (dresult.mk_value default_dispatch 4 : dresult Nat result_signal Nat) fb =
      some (if (dresult.mk_value default_dispatch 4 :
          dresult Nat result_signal Nat).storage.signal = default_dispatch.success
        then (dresult.mk_value default_dispatch 4 :
          dresult Nat result_signal Nat).storage.data.getD fb else fb)) ∧
    (∀ fb : Nat, dresult_void.value_or default_dispatch
      (dresult_void.mk_value default_dispatch 4 : dresult_void Nat result_signal) fb =
      some (if (dresult_void.mk_value default_dispatch 4 :
          dresult_void Nat result_signal).storage.signal = default_dispatch.success
        then (dresult_void.mk_value default_dispatch 4 :
          dresult_void Nat result_signal).storage.data.getD fb else fb)) :=
  value_or_never_fails Nat Nat result_signal default_dispatch
    ((result_TT.mk_default Nat).set_result 3) 3 rfl
    (dresult.mk_value default_dispatch 4) (fun _ => rfl)
    (dresult_void.mk_value default_dispatch 4) (fun _ => rfl)

/-- C8: for the payload-carrying non-dispatch shapes (general result<T, E>,
homogeneous result<T, T>, optional result<T, void>), reading the wrong
alternative trips an assertion (modelled none) rather than silently returning a
wrong value: get_result(), operator* and operator-> fault on a failure instance
and error() faults on a success instance; under the preconditions has_result()
respectively has_error() the assertion branch is unreachable and the correct
alternative is returned. (The boolean specialization is excluded by design: its
accessors are assertion-free, see C5.) -/
theorem wrong_alternative_access_asserts (T E : Type)
    (rs rf : result_TE T E) (hs : rs.has_result = true) (hf : rf.has_result = false)
    (qs qf : result_TT T) (hqs : qs.has_result = true) (hqf : qf.has_result = false)
    (os of : result_Tvoid T) (hos : os.has_result = true) (hof : of.has_result = false) :
    rs.error = none ∧
    rf.get_result = none ∧ rf.star = none ∧ rf.arrow = none ∧
    qs.error = none ∧
    qf.get_result = none ∧ qf.star = none ∧ qf.arrow = none ∧
    of.get_result = none ∧ of.star = none ∧ of.arrow = none ∧
    (∀ t, rs.m_storage.val = Sum.inl t → rs.get_result = some t) ∧
    (∀ e, rf.m_storage.val = Sum.inr e → rf.error = some e) ∧
    qs.get_result = qs.m_storage.val ∧
    qf.error = qf.m_storage.val ∧
    os.get_result = os.m_storage.val ∧
    (os.get_result).isSome = true := by
  have hsv : rs.m_storage.val.isLeft = true := hs
  have hfv : rf.m_storage.val.isLeft = false := by
    simpa [result_TE.has_result, result_storage_t.has_value] using hf
  have hqsv : qs.m_error = false := by
    simpa [result_TT.has_result] using hqs
  have hqfv : qf.m_error = true := by
    simpa [result_TT.has_result] using hqf
  have hosv : os.m_storage.val.isSome = true := hos
  have hofv : of.m_storage.val.isSome = false := by
    simpa [result_Tvoid.has_result, result_storage_opt.has_value] using hof
  refine ⟨?_, ?_, ?_, ?_, ?_, ?_, ?_, ?_, ?_, ?_, ?_, ?_, ?_, ?_, ?_, ?_, ?_⟩
  · rcases hv : rs.m_storage.val with t | e
    · simp [result_TE.error, result_storage_t.error, hv]
    · rw [hv] at hsv; simp at hsv
  · rcases hv : rf.m_storage.val with t | e
    · rw [hv] at hfv; simp at hfv
    · simp [result_TE.get_result, result_storage_t.value, hv]
  · rcases hv : rf.m_storage.val with t | e
    · rw [hv] at hfv; simp at hfv
    · simp [result_TE.star, result_TE.get_result, result_storage_t.value, hv]
  · rcases hv : rf.m_storage.val with t | e
    · rw [hv] at hfv; simp at hfv
    · simp [result_TE.arrow, result_TE.get_result, result_storage_t.value, hv]
  · simp [result_TT.error, hqsv]
  · simp [result_TT.get_result, hqfv]
  · simp [result_TT.star, result_TT.get_result, hqfv]
  · simp [result_TT.arrow, result_TT.get_result, hqfv]
  · rcases hv : of.m_storage.val with _ | t
    · simp [result_Tvoid.get_result, result_storage_opt.value, hv]
    · rw [hv] at hofv; simp at hofv
  · rcases hv : of.m_storage.val with _ | t
    · simp [result_Tvoid.star, result_Tvoid.get_result, result_storage_opt.value, hv]
    · rw [hv] at hofv; simp at hofv
  · rcases hv : of.m_storage.val with _ | t
    · simp [result_Tvoid.arrow, result_Tvoid.get_result, result_storage_opt.value, hv]
    · rw [hv] at hofv; simp at hofv
  · intro t ht
    simp [result_TE.get_result, result_storage_t.value, ht]
  · intro e he
    simp [result_TE.error, result_storage_t.error, he]
  · simp [result_TT.get_result, result_storage_opt.value, hqsv]
  · simp [result_TT.error, result_storage_opt.value, hqfv]
  · simp [result_Tvoid.get_result, result_storage_opt.value]
  · simpa [result_Tvoid.get_result, result_storage_opt.value] using hosv

/-- Witness for C8 at T = Nat, E = Bool with concrete success and failure
instances of each payload shape. -/
theorem wrong_alternative_access_asserts_witness :
    (result_TE.mk_value 5 : result_TE Nat Bool).error = none ∧
    (result_TE.mk_error true : result_TE Nat Bool).get_result = none ∧
    (result_TE.mk_error true : result_TE Nat Bool).star = none ∧
    (result_TE.mk_error true : result_TE Nat Bool).arrow = none ∧
    ((result_TT.mk_default Nat).set_result 6).error = none ∧
    ((result_TT.mk_default Nat).set_error 7).get_result = none ∧
    ((result_TT.mk_default Nat).set_error 7).star = none ∧
    ((result_TT.mk_default Nat).set_error 7).arrow = none ∧
    (result_Tvoid.mk_default Nat).get_result = none ∧
    (result_Tvoid.mk_default Nat).star = none ∧
    (result_Tvoid.mk_default Nat).arrow = none ∧
    (∀ t, (result_TE.mk_value 5 : result_TE Nat Bool).m_storage.val = Sum.inl t →
      (result_TE.mk_value 5 : result_TE Nat Bool).get_result = some t) ∧
    (∀ e, (result_TE.mk_error true : result_TE Nat Bool).m_storage.val = Sum.inr e →
      (result_TE.mk_error true : result_TE Nat Bool).error = some e) ∧
    ((result_TT.mk_default Nat).set_result 6).get_result =
      ((result_TT.mk_default Nat).set_result 6).m_storage.val ∧
    ((result_TT.mk_default Nat).set_error 7).error =
      ((result_TT.mk_default Nat).set_error 7).m_storage.val ∧
    (result_Tvoid.mk_value 8 : result_Tvoid Nat).get_result =
      (result_Tvoid.mk_value 8 : result_Tvoid Nat).m_storage.val ∧
    ((result_Tvoid.mk_value 8 : result_Tvoid Nat).get_result).isSome = true :=
  wrong_alternative_access_asserts Nat Bool
    (result_TE.mk_value 5) (result_TE.mk_error true) rfl rfl
    ((result_TT.mk_default Nat).set_result 6) ((result_TT.mk_default Nat).set_error 7)
    rfl rfl
    (result_Tvoid.mk_value 8) (result_Tvoid.mk_default Nat) rfl rfl

/-- C9: in the dispatch-policy variant, error() is total and never throws or
asserts: on an instance whose signal is not the success tag it returns the
stored error (true when err is void); on a success-signalled instance it
returns a default-constructed error (false when err is void). -/
theorem dispatch_error_total (T E S : Type) [Inhabited E] [DecidableEq S]
    (d : result_dispatch S) (hne : d.failure ≠ d.success)
    (rne : dresult T S E) (hrne : ¬rne.storage.signal = d.success)
    (rsu : dresult T S E) (hrsu : rsu.storage.signal = d.success)
    (vne : dresult_void T S) (hvne : ¬vne.storage.signal = d.success)
    (vsu : dresult_void T S) (hvsu : vsu.storage.signal = d.success)
    (e : E) (v : T) :
    dresult.error d rne = rne.storage.error ∧
    dresult.error d rsu = (default : E) ∧
    dresult.error d (dresult.mk_fail d e : dresult T S E) = e ∧
    dresult.error d (dresult.mk_value d v : dresult T S E) = (default : E) ∧
    dresult_void.error d vne = true ∧
    dresult_void.error d vsu = false := by
  refine ⟨?_, ?_, ?_, ?_, ?_, ?_⟩ <;>
    simp [dresult.error, dresult_void.error, dresult.mk_fail, dresult.mk_sig,
      dresult.mk_value, hrne, hrsu, hvne, hvsu, hne]

/-- Witness for C9 at T = E = Nat, the default dispatch, with the default
failure instance, a success instance holding 1, and error value 3. -/
theorem dispatch_error_total_witness :
    dresult.error default_dispatch
      (dresult.mk_default default_dispatch : dresult Nat result_signal Nat) =
      (dresult.mk_default default_dispatch :
        dresult Nat result_signal Nat).storage.error ∧
    dresult.error default_dispatch
      (dresult.mk_value default_dispatch 1 : dresult Nat result_signal Nat) =
      (default : Nat) ∧
    dresult.error default_dispatch
      (dresult.mk_fail default_dispatch 3 : dresult Nat result_signal Nat) = 3 ∧
    dresult.error default_dispatch
      (dresult.mk_value default_dispatch 1 : dresult Nat result_signal Nat) =
      (default : Nat) ∧
    dresult_void.error default_dispatch
      (dresult_void.mk_default default_dispatch : dresult_void Nat result_signal) =
      true ∧
    dresult_void.error default_dispatch
      (dresult_void.mk_value default_dispatch 1 : dresult_void Nat result_signal) =
      false := by
  have h := dispatch_error_total Nat Nat result_signal default_dispatch (by decide)
    (dresult.mk_default default_dispatch) (by decide)
    (dresult.mk_value default_dispatch 1) rfl
    (dresult_void.mk_default default_dispatch) (by decide)
    (dresult_void.mk_value default_dispatch 1) rfl 3 1
  exact ⟨h.1, h.2.2.2.1, h.2.2.1, h.2.2.2.1, h.2.2.2.2.1, h.2.2.2.2.2⟩

/-- C10: for the boolean specialization, move() has no precondition and never
asserts: it always returns the current flag and resets the flag to false, so
after any move() the instance reports failure, and a second move() immediately
after an extraction returns false. -/
theorem bool_move_never_asserts :
    (∀ r : result_boolvoid, (r.move).1 = r.get_result) ∧
    (∀ r : result_boolvoid, ((r.move).2).has_result = false) ∧
    (∀ r : result_boolvoid, ((r.move).2).to_bool = false) ∧
    (∀ r : result_boolvoid, (((r.move).2).move).1 = false) ∧
    (result_boolvoid.mk_value true).move = (true, result_boolvoid.mk_default) :=
  ⟨fun _ => rfl, fun _ => rfl, fun _ => rfl, fun _ => rfl, rfl⟩

end kt
